import Mathlib

/-!
Verification of the NiiHut order risk/fraud-assessment engine and its
checkout orchestrators, shallowly embedded from the TypeScript source.

Embedding conventions:
* Supabase query results `const { data } = await ...` are modelled as
  `Option`-valued fields of an explicit collaborator-state record; `none`
  stands for a failed lookup or an empty `.single()` result (supabase
  surfaces both as `data = null` and never throws).
* Tables consulted through filtered queries (`orders`, `blocked_entries`,
  `products`) are modelled as lists of row records and the query as the
  corresponding filter; `.single()` returns the row iff exactly one
  matches, `none` otherwise.
* JavaScript timestamps are milliseconds since the epoch, modelled as
  `Int`; monetary amounts are modelled as `ℚ`; risk points as `Int`.
* A thrown `Error` is modelled as `Except.error` carrying the message.
-/

namespace NiiHut

/-- The three-way decision of the risk engine (field `action` of
`RiskAnalysisResult` in `src/lib/risk-engine`). -/
inductive RiskAction
  | approve
  | flag
  | block
deriving DecidableEq, Repr

/-- One itemized contributing factor `{ factor: string; points: number }`. -/
structure RiskFactor where
  factor : String
  points : Int
deriving DecidableEq, Repr

/-- The result record returned by `RiskEngine.evaluateOrder`. -/
structure RiskAnalysisResult where
  score : Int
  flagged : Bool
  blocked : Bool
  factors : List RiskFactor
  action : RiskAction
deriving DecidableEq, Repr

/-- The slice of a `users` row read by the engine: `created_at`,
as milliseconds since the epoch (`new Date(user.created_at).getTime()`). -/
structure UserRow where
  created_at : Int
deriving DecidableEq, Repr

/-- An `orders` row, restricted to the columns the risk engine and the
checkout orchestrator query: `user_id`, `phone_number`, `created_at`
(ms since epoch) and `status`. -/
structure OrderRow where
  user_id : Option String
  phone_number : String
  created_at : Int
  status : String
deriving DecidableEq, Repr

/-- A `blocked_phones` row as selected by the engine (only `reason` is
consulted; the table has no severity or expiry columns). -/
structure BlockedPhoneRow where
  reason : String
deriving DecidableEq, Repr

/-- Collaborator state seen by one call of `RiskEngine.evaluateOrder`:
the three supabase reads it performs. `userRow` is the
`users.select(created_at).eq(id, userId).single()` result, `ordersQuery`
the `orders` rows visible to the velocity count (`none` = failed query,
making `count` null), `blockedPhone` the
`blocked_phones.eq(phone_number, phone).single()` result. `nowMs` is
`Date.now()`. -/
structure EngineState where
  userRow : Option UserRow
  ordersQuery : Option (List OrderRow)
  blockedPhone : Option BlockedPhoneRow
  nowMs : Int
deriving Repr

/-- Milliseconds in 24 hours, the window of the new-account and velocity
checks (`24 * 60 * 60 * 1000`). -/
def dayMs : Int := 24 * 60 * 60 * 1000

/-- The velocity-query row filter: `eq(phone_number, phone)`,
`gte(created_at, yesterday)`, `neq(status, cancelled)`,
`neq(status, delivered)`. -/
def isLiveRecentOrder (phone : String) (nowMs : Int) (o : OrderRow) : Bool :=
  o.phone_number == phone
    && decide (nowMs - dayMs ≤ o.created_at)
    && o.status != "cancelled"
    && o.status != "delivered"

/-- The `count: exact` of the velocity query over the `orders` table. -/
def liveRecentCount (phone : String) (nowMs : Int) (rows : List OrderRow) : Nat :=
  (rows.filter (isLiveRecentOrder phone nowMs)).length

/-- Step 2 of `evaluateOrder`: if the user exists and
`hrsSinceCreation < 24`, add 10 points with factor
`New Account (<24h)`. The real-division comparison
`(now - created) / 3600000 < 24` is equivalent to
`now - created < 86400000`. -/
def newAccountSignal (user : Option UserRow) (nowMs : Int) :
    Int × List RiskFactor :=
  match user with
  | some u =>
    if nowMs - u.created_at < dayMs then
      (10, [⟨"New Account (<24h)", 10⟩])
    else (0, [])
  | none => (0, [])

/-- Step 3 of `evaluateOrder`: if `totalAmount > 5000`
(`HIGH_VALUE_LIMIT`), add 20 points with factor `High Value Order`. -/
def highValueSignal (totalAmount : ℚ) : Int × List RiskFactor :=
  if 5000 < totalAmount then (20, [⟨"High Value Order", 20⟩])
  else (0, [])

/-- Step 4 of `evaluateOrder`: given the nullable velocity count
(`recentOrders`), if it is truthy and at least 2, add 40 points when it
is at least 3 and 10 points otherwise, with a factor naming the count. -/
def velocitySignal (recentOrders : Option Nat) : Int × List RiskFactor :=
  match recentOrders with
  | some n =>
    if n ≠ 0 ∧ 2 ≤ n then
      let pts : Int := if 3 ≤ n then 40 else 10
      (pts, [⟨"High Order Velocity (" ++ toString n ++ " active)", pts⟩])
    else (0, [])
  | none => (0, [])

/-- Step 5 of `evaluateOrder`: a `blocked_phones` match adds 100 points
with a factor naming the entry reason. -/
def blockedPhoneSignal (row : Option BlockedPhoneRow) :
    Int × List RiskFactor :=
  match row with
  | some b => (100, [⟨"Phone Number Blocked: " ++ b.reason, 100⟩])
  | none => (0, [])

/-- The final decision of `evaluateOrder`: `block` at
`THRESHOLD_BLOCK = 70`, `flag` at `THRESHOLD_FLAG = 30`, otherwise
`approve`. -/
def decideAction (score : Int) : RiskAction :=
  if 70 ≤ score then .block
  else if 30 ≤ score then .flag
  else .approve

/-- Step 1 of `evaluateOrder`: the user row is only fetched when
`userId` is non-null (`if (userId) { ... }`), otherwise `user = null`. -/
def fetchedUser (userId : Option String) (st : EngineState) :
    Option UserRow :=
  match userId with
  | none => none
  | some _ => st.userRow

/-- `RiskEngine.evaluateOrder(userId, phone, totalAmount, shippingAddress)`.
The shipping address is accepted but never read by the source, so it is
omitted. The user row is only fetched when `userId` is non-null; the
score is the running sum of the four signals and the factor list their
concatenation in evaluation order. -/
def evaluateOrder (userId : Option String) (phone : String)
    (totalAmount : ℚ) (st : EngineState) : RiskAnalysisResult :=
  let user : Option UserRow := fetchedUser userId st
  let s1 := newAccountSignal user st.nowMs
  let s2 := highValueSignal totalAmount
  let s3 := velocitySignal (st.ordersQuery.map (liveRecentCount phone st.nowMs))
  let s4 := blockedPhoneSignal st.blockedPhone
  let score := s1.1 + s2.1 + s3.1 + s4.1
  let action := decideAction score
  { score := score
    flagged := action != .approve
    blocked := action == .block
    factors := s1.2 ++ s2.2 ++ s3.2 ++ s4.2
    action := action }

/-- The new-account signal is self-consistent: its points equal the sum
of its factor points, and both are nonnegative. -/
lemma newAccountSignal_spec (u : Option UserRow) (t : Int) :
    (newAccountSignal u t).1
        = ((newAccountSignal u t).2.map RiskFactor.points).sum
      ∧ 0 ≤ (newAccountSignal u t).1
      ∧ ∀ f ∈ (newAccountSignal u t).2, 0 ≤ f.points := by
  cases u with
  | none => simp [newAccountSignal]
  | some u => simp only [newAccountSignal]; split_ifs <;> simp

/-- The high-value signal is self-consistent. -/
lemma highValueSignal_spec (amt : ℚ) :
    (highValueSignal amt).1
        = ((highValueSignal amt).2.map RiskFactor.points).sum
      ∧ 0 ≤ (highValueSignal amt).1
      ∧ ∀ f ∈ (highValueSignal amt).2, 0 ≤ f.points := by
  simp only [highValueSignal]; split_ifs <;> simp

/-- The velocity signal is self-consistent. -/
lemma velocitySignal_spec (c : Option Nat) :
    (velocitySignal c).1 = ((velocitySignal c).2.map RiskFactor.points).sum
      ∧ 0 ≤ (velocitySignal c).1
      ∧ ∀ f ∈ (velocitySignal c).2, 0 ≤ f.points := by
  cases c with
  | none => simp [velocitySignal]
  | some n =>
    simp only [velocitySignal]
    split_ifs <;> simp

/-- The blocked-phone signal is self-consistent. -/
lemma blockedPhoneSignal_spec (b : Option BlockedPhoneRow) :
    (blockedPhoneSignal b).1
        = ((blockedPhoneSignal b).2.map RiskFactor.points).sum
      ∧ 0 ≤ (blockedPhoneSignal b).1
      ∧ ∀ f ∈ (blockedPhoneSignal b).2, 0 ≤ f.points := by
  cases b <;> simp [blockedPhoneSignal]

/-- The score of a result is the sum of the four signal points. -/
lemma evaluateOrder_score (userId : Option String) (phone : String)
    (amt : ℚ) (st : EngineState) :
    (evaluateOrder userId phone amt st).score
      = (newAccountSignal (fetchedUser userId st) st.nowMs).1
        + (highValueSignal amt).1
        + (velocitySignal
            (st.ordersQuery.map (liveRecentCount phone st.nowMs))).1
        + (blockedPhoneSignal st.blockedPhone).1 := rfl

/-- The factor list of a result is the concatenation of the four signal
factor lists, in evaluation order. -/
lemma evaluateOrder_factors (userId : Option String) (phone : String)
    (amt : ℚ) (st : EngineState) :
    (evaluateOrder userId phone amt st).factors
      = (newAccountSignal (fetchedUser userId st) st.nowMs).2
        ++ (highValueSignal amt).2
        ++ (velocitySignal
            (st.ordersQuery.map (liveRecentCount phone st.nowMs))).2
        ++ (blockedPhoneSignal st.blockedPhone).2 := rfl

/-- The action of a result is the threshold decision on its score. -/
lemma evaluateOrder_action (userId : Option String) (phone : String)
    (amt : ℚ) (st : EngineState) :
    (evaluateOrder userId phone amt st).action
      = decideAction ((evaluateOrder userId phone amt st).score) := rfl

/-- The flagged flag is the boolean projection of the action. -/
lemma evaluateOrder_flagged (userId : Option String) (phone : String)
    (amt : ℚ) (st : EngineState) :
    (evaluateOrder userId phone amt st).flagged
      = ((evaluateOrder userId phone amt st).action != .approve) := rfl

/-- The blocked flag is the boolean projection of the action. -/
lemma evaluateOrder_blocked (userId : Option String) (phone : String)
    (amt : ℚ) (st : EngineState) :
    (evaluateOrder userId phone amt st).blocked
      = ((evaluateOrder userId phone amt st).action == .block) := rfl

/-- Threshold characterisation of the block decision. -/
lemma decideAction_eq_block_iff (s : Int) :
    decideAction s = .block ↔ 70 ≤ s := by
  simp only [decideAction]; split_ifs <;> simp_all

/-- Threshold characterisation of the flag decision. -/
lemma decideAction_eq_flag_iff (s : Int) :
    decideAction s = .flag ↔ 30 ≤ s ∧ s < 70 := by
  simp only [decideAction]; split_ifs <;> simp_all

/-- Threshold characterisation of the approve decision. -/
lemma decideAction_eq_approve_iff (s : Int) :
    decideAction s = .approve ↔ s < 30 := by
  simp only [decideAction]; split_ifs <;> simp_all; omega

/-- C1: for every input to RiskEngine.evaluateOrder and every
collaborator state, the returned result satisfies the threshold
partition: action is block iff score is at least 70
(risk_threshold_block), flag iff the score is at least 30
(risk_threshold_flag) and below 70, and approve iff the score is below
30; the three cases are total and non-overlapping. -/
theorem c1_threshold_partition (userId : Option String) (phone : String)
    (amt : ℚ) (st : EngineState) :
    ((evaluateOrder userId phone amt st).action = .block
        ↔ 70 ≤ (evaluateOrder userId phone amt st).score)
      ∧ ((evaluateOrder userId phone amt st).action = .flag
        ↔ 30 ≤ (evaluateOrder userId phone amt st).score
            ∧ (evaluateOrder userId phone amt st).score < 70)
      ∧ ((evaluateOrder userId phone amt st).action = .approve
        ↔ (evaluateOrder userId phone amt st).score < 30) := by
  refine ⟨?_, ?_, ?_⟩ <;> rw [evaluateOrder_action]
  · exact decideAction_eq_block_iff _
  · exact decideAction_eq_flag_iff _
  · exact decideAction_eq_approve_iff _

/-- Witness for C1 at a concrete input: an all-failed collaborator state
and amount 0 give score 0, hence approve. -/
theorem c1_threshold_partition_witness :
    (evaluateOrder none "01712345678" 0 ⟨none, none, none, 0⟩).action
      = .approve :=
  (c1_threshold_partition none "01712345678" 0
      ⟨none, none, none, 0⟩).2.2.mpr (by decide)

/-- C2: for every input and collaborator state, the returned score
equals the sum of the points of the returned factors (additive
invariant), and every factor has nonnegative points. -/
theorem c2_additive_invariant (userId : Option String) (phone : String)
    (amt : ℚ) (st : EngineState) :
    (evaluateOrder userId phone amt st).score
        = (((evaluateOrder userId phone amt st).factors).map
            RiskFactor.points).sum
      ∧ ((evaluateOrder userId phone amt st).factors).all
          (fun f => decide (0 ≤ f.points)) = true := by
  obtain ⟨h1s, h1n, h1f⟩ := newAccountSignal_spec (fetchedUser userId st) st.nowMs
  obtain ⟨h2s, h2n, h2f⟩ := highValueSignal_spec amt
  obtain ⟨h3s, h3n, h3f⟩ :=
    velocitySignal_spec (st.ordersQuery.map (liveRecentCount phone st.nowMs))
  obtain ⟨h4s, h4n, h4f⟩ := blockedPhoneSignal_spec st.blockedPhone
  constructor
  · rw [evaluateOrder_score, evaluateOrder_factors, h1s, h2s, h3s, h4s]
    simp only [List.map_append, List.sum_append, Int.add_assoc]
  · rw [evaluateOrder_factors]
    simp only [List.all_append, Bool.and_eq_true, List.all_eq_true,
      decide_eq_true_eq]
    exact ⟨⟨⟨h1f, h2f⟩, h3f⟩, h4f⟩

/-- C3: whenever the phone matches a blocklist entry, the returned score
is at least 100 and the action is block, regardless of user id, amount,
account age and velocity, because the 100-point blocklist contribution
alone reaches the block threshold and no signal subtracts points. -/
theorem c3_blocklist_dominates (userId : Option String) (phone : String)
    (amt : ℚ) (st : EngineState) (b : BlockedPhoneRow)
    (hb : st.blockedPhone = some b) :
    100 ≤ (evaluateOrder userId phone amt st).score
      ∧ (evaluateOrder userId phone amt st).action = .block
      ∧ (evaluateOrder userId phone amt st).blocked = true := by
  have h4 : (blockedPhoneSignal st.blockedPhone).1 = 100 := by
    rw [hb]; rfl
  have h1n := (newAccountSignal_spec (fetchedUser userId st) st.nowMs).2.1
  have h2n := (highValueSignal_spec amt).2.1
  have h3n :=
    (velocitySignal_spec (st.ordersQuery.map (liveRecentCount phone st.nowMs))).2.1
  have hscore : 100 ≤ (evaluateOrder userId phone amt st).score := by
    rw [evaluateOrder_score, h4]; omega
  have haction : (evaluateOrder userId phone amt st).action = .block := by
    rw [evaluateOrder_action]
    exact (decideAction_eq_block_iff _).mpr (by omega)
  refine ⟨hscore, haction, ?_⟩
  rw [evaluateOrder_blocked, haction]; rfl

/-- Witness for C3: a concrete state whose blocked-phone lookup matches,
with a brand-new account and zero amount, still yields block. -/
theorem c3_blocklist_dominates_witness :
    (⟨some ⟨0⟩, some [], some ⟨"chargeback abuse"⟩, 0⟩ :
        EngineState).blockedPhone = some ⟨"chargeback abuse"⟩
      ∧ (100 ≤ (evaluateOrder (some "u1") "01712345678" 0
            ⟨some ⟨0⟩, some [], some ⟨"chargeback abuse"⟩, 0⟩).score
          ∧ (evaluateOrder (some "u1") "01712345678" 0
              ⟨some ⟨0⟩, some [], some ⟨"chargeback abuse"⟩, 0⟩).action = .block
          ∧ (evaluateOrder (some "u1") "01712345678" 0
              ⟨some ⟨0⟩, some [], some ⟨"chargeback abuse"⟩, 0⟩).blocked = true) :=
  ⟨rfl, c3_blocklist_dominates (some "u1") "01712345678" 0
      ⟨some ⟨0⟩, some [], some ⟨"chargeback abuse"⟩, 0⟩
      ⟨"chargeback abuse"⟩ rfl⟩

/-- With a count of at least 3, the velocity signal contributes exactly
40 points and one factor naming the count. -/
lemma velocitySignal_of_ge_three {n : Nat} (h : 3 ≤ n) :
    velocitySignal (some n)
      = (40, [⟨"High Order Velocity (" ++ toString n ++ " active)", 40⟩]) := by
  simp only [velocitySignal]
  rw [if_pos ⟨by omega, by omega⟩]
  simp [if_pos h]

/-- With a count of exactly 2, the velocity signal contributes exactly
10 points and one factor naming the count. -/
lemma velocitySignal_of_two {n : Nat} (h : n = 2) :
    velocitySignal (some n)
      = (10, [⟨"High Order Velocity (" ++ toString n ++ " active)", 10⟩]) := by
  subst h
  simp only [velocitySignal]
  rw [if_pos ⟨by omega, by omega⟩]
  simp

/-- With a count below 2, the velocity signal contributes nothing. -/
lemma velocitySignal_of_lt_two {n : Nat} (h : n < 2) :
    velocitySignal (some n) = (0, []) := by
  simp only [velocitySignal]
  rw [if_neg (by omega)]

/-- C4: the velocity signal counts orders for the given phone created
within the trailing 24 hours whose status is neither cancelled nor
delivered; a count of at least 3 adds exactly 40 points, a count of 2
adds exactly 10 points, a lower count adds nothing, and the triggered
factor names the count. In particular an established account with
amount 1000, 3 such live orders and no blocklist match yields score 40
and decision flag. -/
theorem c4_velocity_signal (userId : Option String) (phone : String)
    (amt : ℚ) (st : EngineState) (rows : List OrderRow)
    (hq : st.ordersQuery = some rows) :
    ((evaluateOrder userId phone amt st).score
        = (newAccountSignal (fetchedUser userId st) st.nowMs).1
          + (highValueSignal amt).1
          + (if 3 ≤ liveRecentCount phone st.nowMs rows then 40
             else if 2 ≤ liveRecentCount phone st.nowMs rows then 10 else 0)
          + (blockedPhoneSignal st.blockedPhone).1)
      ∧ (2 ≤ liveRecentCount phone st.nowMs rows →
          (⟨"High Order Velocity ("
                ++ toString (liveRecentCount phone st.nowMs rows) ++ " active)",
              if 3 ≤ liveRecentCount phone st.nowMs rows then 40 else 10⟩ :
            RiskFactor) ∈ (evaluateOrder userId phone amt st).factors)
      ∧ (liveRecentCount phone st.nowMs rows < 2 →
          velocitySignal (some (liveRecentCount phone st.nowMs rows)) = (0, []))
      ∧ (∀ i u, userId = some i → st.userRow = some u →
          dayMs ≤ st.nowMs - u.created_at → amt = 1000 →
          liveRecentCount phone st.nowMs rows = 3 → st.blockedPhone = none →
          (evaluateOrder userId phone amt st).score = 40
            ∧ (evaluateOrder userId phone amt st).action = .flag) := by
  have hmap : st.ordersQuery.map (liveRecentCount phone st.nowMs)
      = some (liveRecentCount phone st.nowMs rows) := by
    rw [hq]; rfl
  have hsc := evaluateOrder_score userId phone amt st
  have hfa := evaluateOrder_factors userId phone amt st
  rw [hmap] at hsc hfa
  refine ⟨?_, ?_, ?_, ?_⟩
  · rcases le_or_lt 3 (liveRecentCount phone st.nowMs rows) with h3 | h3
    · rw [hsc, velocitySignal_of_ge_three h3, if_pos h3]
    · rcases le_or_lt 2 (liveRecentCount phone st.nowMs rows) with h2 | h2
      · rw [hsc, velocitySignal_of_two (by omega), if_neg (by omega),
          if_pos h2]
      · rw [hsc, velocitySignal_of_lt_two h2, if_neg (by omega),
          if_neg (by omega)]
  · intro h2
    rw [hfa]
    rcases le_or_lt 3 (liveRecentCount phone st.nowMs rows) with h3 | h3
    · rw [velocitySignal_of_ge_three h3, if_pos h3]
      simp
    · rw [velocitySignal_of_two (by omega), if_neg (by omega)]
      simp
  · exact fun h2 => velocitySignal_of_lt_two h2
  · intro i u hi hu hage hamt hn hb
    have huser : fetchedUser userId st = some u := by
      rw [hi, fetchedUser, hu]
    have h1 : newAccountSignal (fetchedUser userId st) st.nowMs = (0, []) := by
      rw [huser, newAccountSignal]
      simp only [dayMs] at hage ⊢
      rw [if_neg (by omega)]
    have h2 : highValueSignal amt = (0, []) := by
      rw [hamt, highValueSignal, if_neg (by norm_num)]
    have h4 : blockedPhoneSignal st.blockedPhone = (0, []) := by
      rw [hb]; rfl
    have hscore : (evaluateOrder userId phone amt st).score = 40 := by
      rw [hsc, hn, velocitySignal_of_ge_three (by omega), h1, h2, h4]
      decide
    refine ⟨hscore, ?_⟩
    rw [evaluateOrder_action, hscore]
    decide

/-- Witness for C4: an account created well over 24 hours before now,
amount 1000, three live orders on the phone in the window and no
blocklist match give score 40 and decision flag. -/
theorem c4_velocity_signal_witness :
    liveRecentCount "01712345678" 100000000
        [⟨some "u1", "01712345678", 99000000, "pending"⟩,
         ⟨some "u1", "01712345678", 98000000, "pending"⟩,
         ⟨some "u1", "01712345678", 97000000, "processing"⟩] = 3
      ∧ (evaluateOrder (some "u1") "01712345678" 1000
          ⟨some ⟨-100000000⟩,
           some [⟨some "u1", "01712345678", 99000000, "pending"⟩,
                 ⟨some "u1", "01712345678", 98000000, "pending"⟩,
                 ⟨some "u1", "01712345678", 97000000, "processing"⟩],
           none, 100000000⟩).score = 40
      ∧ (evaluateOrder (some "u1") "01712345678" 1000
          ⟨some ⟨-100000000⟩,
           some [⟨some "u1", "01712345678", 99000000, "pending"⟩,
                 ⟨some "u1", "01712345678", 98000000, "pending"⟩,
                 ⟨some "u1", "01712345678", 97000000, "processing"⟩],
           none, 100000000⟩).action = .flag := by
  have h := (c4_velocity_signal (some "u1") "01712345678" 1000
      ⟨some ⟨-100000000⟩,
       some [⟨some "u1", "01712345678", 99000000, "pending"⟩,
             ⟨some "u1", "01712345678", 98000000, "pending"⟩,
             ⟨some "u1", "01712345678", 97000000, "processing"⟩],
       none, 100000000⟩
      [⟨some "u1", "01712345678", 99000000, "pending"⟩,
       ⟨some "u1", "01712345678", 98000000, "pending"⟩,
       ⟨some "u1", "01712345678", 97000000, "processing"⟩] rfl).2.2.2
      "u1" ⟨-100000000⟩ rfl rfl (by decide) rfl (by decide) rfl
  exact ⟨by decide, h.1, h.2⟩

/-- C5: the evaluator never fails: with every lookup failed (user row,
velocity count and blocklist all null) it still returns a result, and
the failed signals contribute zero points, leaving only the high-value
signal; the decision is then approve. -/
theorem c5_failed_lookups_zero (userId : Option String) (phone : String)
    (amt : ℚ) (st : EngineState) (h1 : st.userRow = none)
    (h2 : st.ordersQuery = none) (h3 : st.blockedPhone = none) :
    evaluateOrder userId phone amt st
      = { score := (highValueSignal amt).1
          flagged := false
          blocked := false
          factors := (highValueSignal amt).2
          action := .approve } := by
  have hu : fetchedUser userId st = none := by
    cases userId <;> simp [fetchedUser, h1]
  by_cases hA : (5000 : ℚ) < amt <;>
    simp [evaluateOrder, hu, h1, h2, h3, highValueSignal, hA,
      newAccountSignal, velocitySignal, blockedPhoneSignal, decideAction]

/-- Witness for C5: with all lookups failed and amount 6000, the result
is exactly the high-value signal with decision approve. -/
theorem c5_failed_lookups_zero_witness :
    (⟨none, none, none, 0⟩ : EngineState).userRow = none
      ∧ evaluateOrder (some "u1") "01712345678" 6000 ⟨none, none, none, 0⟩
        = { score := (highValueSignal 6000).1
            flagged := false
            blocked := false
            factors := (highValueSignal 6000).2
            action := .approve } :=
  ⟨rfl, c5_failed_lookups_zero (some "u1") "01712345678" 6000
      ⟨none, none, none, 0⟩ rfl rfl rfl⟩

/-- C10: the booleans of every result are projections of the three-way
action: flagged is true iff the action is not approve and blocked is
true iff the action is block; hence a blocked result is always also
flagged, so the two flags are not mutually exclusive. -/
theorem c10_flags_are_projections (userId : Option String) (phone : String)
    (amt : ℚ) (st : EngineState) :
    (evaluateOrder userId phone amt st).flagged
        = ((evaluateOrder userId phone amt st).action != .approve)
      ∧ (evaluateOrder userId phone amt st).blocked
        = ((evaluateOrder userId phone amt st).action == .block)
      ∧ ((evaluateOrder userId phone amt st).blocked
          && !(evaluateOrder userId phone amt st).flagged) = false := by
  refine ⟨rfl, rfl, ?_⟩
  rw [evaluateOrder_blocked, evaluateOrder_flagged]
  generalize (evaluateOrder userId phone amt st).action = a
  cases a <;> rfl

/-- A `blocked_entries` row: unified blocklist with kind, value,
reason, severity (`hard_block` or `flag_only`) and optional expiry. -/
structure BlockedEntry where
  type : String
  value : String
  reason : String
  severity : String
  expires_at : Option Int
deriving DecidableEq, Repr

/-- PostgREST `.single()`: the row iff exactly one row matched,
otherwise an error surfaced as null data. -/
def singleRow {α : Type} : List α → Option α
  | [a] => some a
  | _ => none

/-- The hard-blocklist fast-fail query filter of `createCheckoutSession`:
`or(type.eq.phone, type.eq.user_id)`, `in(value, [phone, user.id])`,
`eq(severity, hard_block)`. Note that `expires_at` is not consulted. -/
def hardBlockFilter (phone uid : String) (e : BlockedEntry) : Bool :=
  (e.type == "phone" || e.type == "user_id")
    && (e.value == phone || e.value == uid)
    && e.severity == "hard_block"

/-- The whole fast-fail query of `createCheckoutSession`: the filtered
`blocked_entries` rows passed through `.single()`. -/
def fastFailLookup (phone uid : String) (entries : List BlockedEntry) :
    Option BlockedEntry :=
  singleRow (entries.filter (hardBlockFilter phone uid))

/-- The phone regex of `createCheckoutSession` applied after the
optional `+88` prefix: `01[3-9]` followed by exactly 8 digits. -/
def bdPhoneCore : List Char → Bool
  | '0' :: '1' :: d :: rest =>
    decide ('3' ≤ d) && decide (d ≤ '9') && rest.length == 8
      && rest.all Char.isDigit
  | _ => false

/-- The full phone validation regex `(\+88)?01[3-9]` and 8 digits,
anchored at both ends. -/
def validBdPhone (s : String) : Bool :=
  bdPhoneCore s.toList
    || (match s.toList with
        | '+' :: '8' :: '8' :: rest => bdPhoneCore rest
        | _ => false)

/-- The daily-order-limit query filter: `eq(user_id, user.id)`,
`gte(created_at, today at local midnight)`. -/
def dailyOrderFilter (uid : String) (midnightMs : Int) (o : OrderRow) : Bool :=
  o.user_id == some uid && decide (midnightMs ≤ o.created_at)

/-- The JavaScript guard `if (dailyOrders && dailyOrders >= MAX_DAILY)`:
the nullable count must be truthy (non-null and nonzero) and at least
the limit. -/
def dailyLimitTriggers (dailyOrders : Option Nat) (maxDaily : Nat) : Bool :=
  match dailyOrders with
  | some c => c != 0 && decide (maxDaily ≤ c)
  | none => false

/-- A `products` row, restricted to the columns checkout consults. -/
structure ProductRow where
  id : String
  name : String
  price : ℚ
  inventory : Int
deriving DecidableEq, Repr

/-- One entry of the `cartItems` argument of `createCheckoutSession`. -/
structure CartItem where
  product_id : String
  quantity : Int
deriving DecidableEq, Repr

/-- One row of `orderItemsData` accumulated by the cart loop. -/
structure OrderItemIns where
  product_id : String
  quantity : Int
  price_at_purchase : ℚ
deriving DecidableEq, Repr

/-- Step 3 of `createCheckoutSession`: walk the cart items in order;
throw when a product lookup returns no single row or its inventory is
below the requested quantity; otherwise accumulate
`price * quantity` into the subtotal and collect the item rows. -/
def processCart (products : List ProductRow) :
    List CartItem → Except String (ℚ × List OrderItemIns)
  | [] => .ok (0, [])
  | item :: rest =>
    match singleRow (products.filter (fun p => p.id == item.product_id)) with
    | none => .error ("Product " ++ item.product_id ++ " not found")
    | some p =>
      if p.inventory < item.quantity then
        .error ("Insufficient inventory for " ++ p.name)
      else
        match processCart products rest with
        | .error m => .error m
        | .ok (t, its) =>
          .ok (p.price * (item.quantity : ℚ) + t,
            ⟨p.id, item.quantity, p.price⟩ :: its)

/-- Collaborator state of one `createCheckoutSession` call: the
authenticated user, the `blocked_entries` table, the `orders` rows
visible to the daily count (null when that count query fails), the
`risk_rules` row for `max_daily_orders`, the `products` table, the risk
engine collaborator state, the local-midnight reference, and whether the
order and order-items inserts fail (carrying the supabase message). -/
structure OrchWorld where
  authUser : Option String
  blockedEntries : List BlockedEntry
  dailyOrdersResp : Option (List OrderRow)
  maxDailyRule : Option Nat
  products : List ProductRow
  engine : EngineState
  midnightMs : Int
  orderInsertError : Option String
  itemsInsertError : Option String
deriving Repr

/-- Decidable equality for `Except`, used to compare outcomes on
concrete inputs. -/
instance {ε α : Type} [DecidableEq ε] [DecidableEq α] :
    DecidableEq (Except ε α) := fun a b =>
  match a, b with
  | .error e, .error f =>
    if h : e = f then .isTrue (by rw [h]) else .isFalse (by simp [h])
  | .ok x, .ok y =>
    if h : x = y then .isTrue (by rw [h]) else .isFalse (by simp [h])
  | .error _, .ok _ => .isFalse (by simp)
  | .ok _, .error _ => .isFalse (by simp)

/-- Observable outcome of one checkout attempt: the thrown message or
success, whether an `orders` row remains persisted on return, and
whether `RiskEngine.evaluateOrder` was invoked. -/
structure CheckoutOutcome where
  result : Except String Unit
  orderPersisted : Bool
  riskInvoked : Bool
deriving DecidableEq, Repr

/-- `createCheckoutSession(cartItems, shippingAddress)` from the
checkout server action; `phone` is `shippingAddress.phone`, the only
address field the control flow reads. Steps in source order: auth
guard, phone validation, hard-blocklist fast-fail, daily-order-limit
check, cart processing with flat delivery fee 60, risk evaluation,
block abort, order insert, order-items insert with no rollback on
failure. The fire-and-forget steps (risk-assessment insert, user-stats
update, status history, cart clearing) ignore their errors in source
and do not touch the `orders` row, so they do not appear in the
outcome. -/
def createCheckoutSession (cartItems : List CartItem) (phone : String)
    (w : OrchWorld) : CheckoutOutcome :=
  match w.authUser with
  | none => ⟨.error "Must be logged in to checkout", false, false⟩
  | some uid =>
    if !(validBdPhone phone) then
      ⟨.error "Invalid Bangladesh phone number", false, false⟩
    else
      match fastFailLookup phone uid w.blockedEntries with
      | some b =>
        ⟨.error ("You are restricted from placing orders: " ++ b.reason),
          false, false⟩
      | none =>
        let dailyOrders : Option Nat :=
          w.dailyOrdersResp.map
            (fun rows => (rows.filter (dailyOrderFilter uid w.midnightMs)).length)
        let maxDaily : Nat := w.maxDailyRule.getD 3
        if dailyLimitTriggers dailyOrders maxDaily then
          ⟨.error ("Daily order limit reached (" ++ toString maxDaily
            ++ "). Please try again tomorrow."), false, false⟩
        else
          match processCart w.products cartItems with
          | .error m => ⟨.error m, false, false⟩
          | .ok (subtotal, _items) =>
            let totalAmount := subtotal + 60
            let risk := evaluateOrder (some uid) phone totalAmount w.engine
            if risk.blocked then
              ⟨.error "Order rejected due to high risk assessment.",
                false, true⟩
            else
              match w.orderInsertError with
              | some m =>
                ⟨.error ("Order creation failed: " ++ m), false, true⟩
              | none =>
                match w.itemsInsertError with
                | some m =>
                  ⟨.error ("Order items creation failed: " ++ m), true, true⟩
                | none => ⟨.ok (), true, true⟩

/-- One cart item as returned by `getCart` in `createCodOrder`: the
joined product row and the quantity. -/
structure CodCartItem where
  product : ProductRow
  quantity : Int
deriving DecidableEq, Repr

/-- The cart returned by `getCart`: its id and its items. -/
structure CartData where
  id : String
  items : List CodCartItem
deriving DecidableEq, Repr

/-- Collaborator state of one `createCodOrder` call: the resolved
internal user id (null when unauthenticated or unknown), the `getCart`
result, the risk engine collaborator state, and whether the order and
order-items inserts fail. -/
structure CodWorld where
  internalUserId : Option String
  cart : Option CartData
  engine : EngineState
  orderInsertError : Option String
  itemsInsertFails : Bool
deriving Repr

/-- The returned record of `createCodOrder`
(`{ success, error?, orderId? }`), extended with whether an `orders`
row remains persisted on return. -/
structure CodOutcome where
  success : Bool
  errorMsg : Option String
  orderPersisted : Bool
deriving DecidableEq, Repr

/-- Step 2 of `createCodOrder`: the first cart item whose product
inventory is below the requested quantity produces the stock error. -/
def firstStockError : List CodCartItem → Option String
  | [] => none
  | i :: rest =>
    if i.product.inventory < i.quantity then
      some ("\"" ++ i.product.name ++ "\" only has "
        ++ toString i.product.inventory ++ " units in stock.")
    else firstStockError rest

/-- Step 3 of `createCodOrder`: the cart subtotal
`sum(price * quantity)`. -/
def codSubtotal (items : List CodCartItem) : ℚ :=
  items.foldl (fun acc i => acc + i.product.price * (i.quantity : ℚ)) 0

/-- `createCodOrder(formData)` from `src/server-actions/order.ts`;
`phone` is `formData.phoneNumber`. Steps in source order: empty-cart
guard, per-item inventory validation, subtotal plus flat delivery fee
80, risk evaluation, generic block rejection, order insert, order-items
insert whose failure deletes the order row (rollback), then
fire-and-forget inventory decrements (errors logged only), status
history and cart clearing, which ignore their errors and do not touch
the `orders` row. -/
def createCodOrder (phone : String) (w : CodWorld) : CodOutcome :=
  match w.cart with
  | none => ⟨false, some "Cart is empty", false⟩
  | some cart =>
    if cart.items.length == 0 then ⟨false, some "Cart is empty", false⟩
    else
      match firstStockError cart.items with
      | some m => ⟨false, some m, false⟩
      | none =>
        let totalAmount := codSubtotal cart.items + 80
        let risk := evaluateOrder w.internalUserId phone totalAmount w.engine
        if risk.blocked then
          ⟨false,
            some "This order could not be processed. Please contact support.",
            false⟩
        else
          match w.orderInsertError with
          | some m => ⟨false, some ("Failed to create order: " ++ m), false⟩
          | none =>
            if w.itemsInsertFails then
              ⟨false, some "Failed to save order items", false⟩
            else ⟨true, none, true⟩

/-- The fast-fail filter never reads `expires_at`: overwriting it
leaves the filter value unchanged. -/
lemma hardBlockFilter_expiry (phone uid : String) (e : BlockedEntry)
    (x : Option Int) :
    hardBlockFilter phone uid { e with expires_at := x }
      = hardBlockFilter phone uid e := rfl

/-- Filtering a mapped list when the predicate is insensitive to the
map. -/
lemma filter_map_of_pred_invariant {α : Type} (g : α → α) (p : α → Bool)
    (hp : ∀ e, p (g e) = p e) (l : List α) :
    (l.map g).filter p = (l.filter p).map g := by
  induction l with
  | nil => rfl
  | cons a t ih =>
    simp only [List.map_cons, List.filter_cons, hp]
    by_cases h : p a <;> simp [h, ih]

/-- `.single()` commutes with mapping over the candidate rows. -/
lemma singleRow_map {α β : Type} (g : α → β) (l : List α) :
    singleRow (l.map g) = (singleRow l).map g := by
  rcases l with _ | ⟨a, _ | ⟨b, t⟩⟩ <;> rfl

/-- The fast-fail lookup on entries with rewritten expiries is the
lookup on the original entries, with the expiry of the one found row
rewritten. -/
lemma fastFailLookup_expiry (phone uid : String) (l : List BlockedEntry)
    (f : BlockedEntry → Option Int) :
    fastFailLookup phone uid (l.map (fun e => { e with expires_at := f e }))
      = (fastFailLookup phone uid l).map
          (fun e => { e with expires_at := f e }) := by
  rw [fastFailLookup, fastFailLookup,
    filter_map_of_pred_invariant _ _
      (fun e => hardBlockFilter_expiry phone uid e (f e)),
    singleRow_map]

/-- C6 counterexample: a `blocked_entries` row whose `expires_at`
(1000) lies strictly before the attempt time (2000000) still triggers
the hard-blocklist fast-fail, because no query filters on expiry; the
claim that an expired entry never triggers it is false. -/
theorem c6_counterexample :
    ((⟨"phone", "01712345678", "fraud", "hard_block", some 1000⟩ :
        BlockedEntry).expires_at = some 1000 ∧ (1000 : Int) < 2000000)
      ∧ createCheckoutSession [] "01712345678"
          ⟨some "u1",
            [⟨"phone", "01712345678", "fraud", "hard_block", some 1000⟩],
            some [], none, [], ⟨none, none, none, 2000000⟩, 2000000 - 1000000,
            none, none⟩
        = ⟨.error "You are restricted from placing orders: fraud",
            false, false⟩ :=
  ⟨⟨rfl, by decide⟩, by decide⟩

/-- C6 amended: checkout never consults `expires_at`. Rewriting the
expiry of every blocklist entry arbitrarily (in particular, expiring
all of them) leaves the outcome of `createCheckoutSession` unchanged,
and the evaluator reads `blocked_phones`, a table with no expiry column
at all, so expired entries block exactly as unexpired ones do. -/
theorem c6_expiry_never_consulted (cartItems : List CartItem)
    (phone : String) (w : OrchWorld) (f : BlockedEntry → Option Int) :
    createCheckoutSession cartItems phone
        { w with blockedEntries :=
            w.blockedEntries.map (fun e => { e with expires_at := f e }) }
      = createCheckoutSession cartItems phone w := by
  simp only [createCheckoutSession, fastFailLookup_expiry]
  cases w.authUser with
  | none => rfl
  | some uid =>
    by_cases hv : validBdPhone phone
    · simp only [hv]
      cases hs : fastFailLookup phone uid w.blockedEntries with
      | none => simp [hs]
      | some b => simp [hs]
    · simp [hv]

/-- C7 counterexample: with `max_daily_orders` configured as 0 and a
customer with 0 orders since midnight, the count (0) is at least the
limit (0), yet the JavaScript truthiness guard
`dailyOrders && dailyOrders >= MAX_DAILY` skips the check and the
attempt proceeds all the way to a successful order, invoking the risk
engine; so the claim that such an attempt is rejected before the
engine runs is false. -/
theorem c7_counterexample :
    ((⟨some "u1", [], some [], some 0, [], ⟨none, none, none, 0⟩, 0, none,
        none⟩ : OrchWorld).maxDailyRule.getD 3 = 0
      ∧ (([] : List OrderRow).filter (dailyOrderFilter "u1" 0)).length = 0)
      ∧ createCheckoutSession [] "01712345678"
          ⟨some "u1", [], some [], some 0, [], ⟨none, none, none, 0⟩, 0,
            none, none⟩
        = ⟨.ok (), true, true⟩ := by
  refine ⟨⟨rfl, rfl⟩, ?_⟩
  norm_num [createCheckoutSession, validBdPhone, bdPhoneCore, singleRow,
    fastFailLookup, hardBlockFilter, dailyOrderFilter, dailyLimitTriggers,
    processCart, evaluateOrder, fetchedUser, newAccountSignal,
    highValueSignal, velocitySignal, blockedPhoneSignal, decideAction,
    liveRecentCount, isLiveRecentOrder, dayMs]
  decide

/-- C7 amended: when the daily count query succeeds and the customer
already has a nonzero number of orders created since local midnight
that is at least `max_daily_orders` (3 when the rule row is absent),
checkout is rejected with the daily-limit error before, and without
ever, invoking the risk engine; and whenever the count is strictly
below the limit the daily-limit guard never fires. -/
theorem c7_daily_limit_fast_fail (cartItems : List CartItem)
    (phone : String) (w : OrchWorld) (uid : String) (rows : List OrderRow)
    (hu : w.authUser = some uid)
    (hv : validBdPhone phone = true)
    (hnb : fastFailLookup phone uid w.blockedEntries = none)
    (hr : w.dailyOrdersResp = some rows)
    (hpos : 1 ≤ (rows.filter (dailyOrderFilter uid w.midnightMs)).length)
    (hge : w.maxDailyRule.getD 3
      ≤ (rows.filter (dailyOrderFilter uid w.midnightMs)).length) :
    createCheckoutSession cartItems phone w
        = ⟨.error ("Daily order limit reached ("
            ++ toString (w.maxDailyRule.getD 3)
            ++ "). Please try again tomorrow."), false, false⟩
      ∧ ∀ c m : Nat, c < m → dailyLimitTriggers (some c) m = false := by
  constructor
  · have htrig : dailyLimitTriggers
        (w.dailyOrdersResp.map
          (fun rs => (rs.filter (dailyOrderFilter uid w.midnightMs)).length))
        (w.maxDailyRule.getD 3) = true := by
      rw [hr]
      simp only [Option.map_some', dailyLimitTriggers, Bool.and_eq_true,
        bne_iff_ne, ne_eq, decide_eq_true_eq]
      omega
    simp only [createCheckoutSession, hu, hv, hnb, Bool.not_true,
      Bool.false_eq_true, if_false, htrig, if_true]
  · intro c m h
    simp only [dailyLimitTriggers, Bool.and_eq_false_iff]
    right
    simpa using by omega

/-- Witness for C7 (amended): a configured limit of 1 and one order
since midnight reject the attempt with the daily-limit message, without
invoking the engine. -/
theorem c7_daily_limit_fast_fail_witness :
    (⟨some "u1", [], some [⟨some "u1", "01712345678", 5, "pending"⟩],
        some 1, [], ⟨none, none, none, 0⟩, 0, none, none⟩ :
          OrchWorld).dailyOrdersResp
        = some [⟨some "u1", "01712345678", 5, "pending"⟩]
      ∧ (createCheckoutSession [] "01712345678"
          ⟨some "u1", [], some [⟨some "u1", "01712345678", 5, "pending"⟩],
            some 1, [], ⟨none, none, none, 0⟩, 0, none, none⟩
          = ⟨.error ("Daily order limit reached (" ++ toString (1 : Nat)
              ++ "). Please try again tomorrow."), false, false⟩) := by
  refine ⟨rfl, ?_⟩
  exact (c7_daily_limit_fast_fail [] "01712345678"
      ⟨some "u1", [], some [⟨some "u1", "01712345678", 5, "pending"⟩],
        some 1, [], ⟨none, none, none, 0⟩, 0, none, none⟩
      "u1" [⟨some "u1", "01712345678", 5, "pending"⟩]
      rfl (by decide) rfl rfl (by decide) (by decide)).1

/-- A blocked-phone match forces the blocked flag, whatever the other
inputs, since its 100 points alone cross the 70 threshold. -/
lemma evaluateOrder_blocked_of_match (userId : Option String)
    (phone : String) (amt : ℚ) (st : EngineState) (b : BlockedPhoneRow)
    (hb : st.blockedPhone = some b) :
    (evaluateOrder userId phone amt st).blocked = true := by
  have h4 : (blockedPhoneSignal st.blockedPhone).1 = 100 := by
    rw [hb]; rfl
  have h1n := (newAccountSignal_spec (fetchedUser userId st) st.nowMs).2.1
  have h2n := (highValueSignal_spec amt).2.1
  have h3n :=
    (velocitySignal_spec (st.ordersQuery.map (liveRecentCount phone st.nowMs))).2.1
  have haction : (evaluateOrder userId phone amt st).action = .block := by
    rw [evaluateOrder_action]
    refine (decideAction_eq_block_iff _).mpr ?_
    rw [evaluateOrder_score, h4]; omega
  rw [evaluateOrder_blocked, haction]; rfl

/-- C8 counterexample: the hard-blocklist fast-fail aborts with a
message that embeds the blocklist entry's reason, so the claim that
every block rejection message is generic and never contains the reason
is false (the evaluator-block messages are generic, but this path is
not). -/
theorem c8_counterexample :
    createCheckoutSession [] "01712345678"
        ⟨some "u1",
          [⟨"phone", "01712345678", "known fraud ring", "hard_block", none⟩],
          some [], none, [], ⟨none, none, none, 0⟩, 0, none, none⟩
        = ⟨.error "You are restricted from placing orders: known fraud ring",
            false, false⟩
      ∧ ∃ pre post : String,
          "You are restricted from placing orders: known fraud ring"
            = pre ++ "known fraud ring" ++ post :=
  ⟨by decide, "You are restricted from placing orders: ", "", by decide⟩

/-- C8 amended: whenever a checkout attempt is rejected for a block
outcome, no order row is persisted; the evaluator-decision block
messages of both orchestrators are fixed generic strings carrying no
score, factors or reason, while the hard-blocklist fast-fail message
appends the matched entry's reason. -/
theorem c8_block_rejections (cartItems : List CartItem) (phone : String)
    (w : OrchWorld) (w2 : CodWorld) (uid : String) (b : BlockedEntry)
    (sub : ℚ) (items : List OrderItemIns) (cart : CartData) :
    (w.authUser = some uid → validBdPhone phone = true →
      fastFailLookup phone uid w.blockedEntries = none →
      dailyLimitTriggers
        (w.dailyOrdersResp.map
          (fun rows => (rows.filter (dailyOrderFilter uid w.midnightMs)).length))
        (w.maxDailyRule.getD 3) = false →
      processCart w.products cartItems = .ok (sub, items) →
      (evaluateOrder (some uid) phone (sub + 60) w.engine).blocked = true →
      createCheckoutSession cartItems phone w
        = ⟨.error "Order rejected due to high risk assessment.",
            false, true⟩)
    ∧ (w2.cart = some cart → (cart.items.length == 0) = false →
        firstStockError cart.items = none →
        (evaluateOrder w2.internalUserId phone
          (codSubtotal cart.items + 80) w2.engine).blocked = true →
        createCodOrder phone w2
          = ⟨false,
              some "This order could not be processed. Please contact support.",
              false⟩)
    ∧ (w.authUser = some uid → validBdPhone phone = true →
        fastFailLookup phone uid w.blockedEntries = some b →
        createCheckoutSession cartItems phone w
          = ⟨.error ("You are restricted from placing orders: " ++ b.reason),
              false, false⟩) := by
  refine ⟨?_, ?_, ?_⟩
  · intro h1 h2 h3 h4 h5 h6
    simp only [createCheckoutSession, h1, h2, h3, h4, h5, h6,
      Bool.not_true, Bool.false_eq_true, if_false, if_true]
  · intro h1 h2 h3 h4
    simp only [createCodOrder, h1, h2, h3, h4, Bool.false_eq_true,
      if_false, if_true]
  · intro h1 h2 h3
    simp only [createCheckoutSession, h1, h2, h3, Bool.not_true,
      Bool.false_eq_true, if_false]

/-- Witness for C8 (amended): concrete blocked runs of both
orchestrators return the fixed generic messages with no order
persisted, and a concrete fast-fail returns the reason-bearing message
with no order persisted. -/
theorem c8_block_rejections_witness :
    createCheckoutSession [] "01712345678"
        ⟨some "u1", [], some [], none, [],
          ⟨none, none, some ⟨"serial refuser"⟩, 0⟩, 0, none, none⟩
        = ⟨.error "Order rejected due to high risk assessment.",
            false, true⟩
      ∧ createCodOrder "01712345678"
          ⟨some "u1", some ⟨"c1", [⟨⟨"p1", "Widget", 100, 5⟩, 1⟩]⟩,
            ⟨none, none, some ⟨"serial refuser"⟩, 0⟩, none, false⟩
          = ⟨false,
              some "This order could not be processed. Please contact support.",
              false⟩
      ∧ createCheckoutSession [] "01712345678"
          ⟨some "u1",
            [⟨"phone", "01712345678", "scammer", "hard_block", none⟩],
            some [], none, [], ⟨none, none, none, 0⟩, 0, none, none⟩
          = ⟨.error ("You are restricted from placing orders: "
              ++ "scammer"), false, false⟩ := by
  refine ⟨?_, ?_, ?_⟩
  · exact (c8_block_rejections [] "01712345678"
      ⟨some "u1", [], some [], none, [],
        ⟨none, none, some ⟨"serial refuser"⟩, 0⟩, 0, none, none⟩
      ⟨none, none, ⟨none, none, none, 0⟩, none, false⟩
      "u1" ⟨"", "", "", "", none⟩ 0 [] ⟨"c0", []⟩).1
      rfl (by decide) rfl rfl rfl
      (evaluateOrder_blocked_of_match (some "u1") "01712345678" (0 + 60)
        ⟨none, none, some ⟨"serial refuser"⟩, 0⟩ ⟨"serial refuser"⟩ rfl)
  · exact (c8_block_rejections [] "01712345678"
      ⟨some "u1", [], some [], none, [],
        ⟨none, none, some ⟨"serial refuser"⟩, 0⟩, 0, none, none⟩
      ⟨some "u1", some ⟨"c1", [⟨⟨"p1", "Widget", 100, 5⟩, 1⟩]⟩,
        ⟨none, none, some ⟨"serial refuser"⟩, 0⟩, none, false⟩
      "u1" ⟨"", "", "", "", none⟩ 0 [] ⟨"c1", [⟨⟨"p1", "Widget", 100, 5⟩, 1⟩]⟩).2.1
      rfl rfl rfl
      (evaluateOrder_blocked_of_match (some "u1") "01712345678"
        (codSubtotal [⟨⟨"p1", "Widget", 100, 5⟩, 1⟩] + 80)
        ⟨none, none, some ⟨"serial refuser"⟩, 0⟩ ⟨"serial refuser"⟩ rfl)
  · exact (c8_block_rejections [] "01712345678"
      ⟨some "u1",
        [⟨"phone", "01712345678", "scammer", "hard_block", none⟩],
        some [], none, [], ⟨none, none, none, 0⟩, 0, none, none⟩
      ⟨none, none, ⟨none, none, none, 0⟩, none, false⟩
      "u1" ⟨"phone", "01712345678", "scammer", "hard_block", none⟩
      0 [] ⟨"c0", []⟩).2.2
      rfl (by decide) rfl

/-- C9: evaluating `createCheckoutSession` at a run whose order-items
insert fails after a successful order insert: the outcome is the thrown
items error with the order row still persisted, because the source
comments out the rollback (the delete of the order row) and only
throws; `createCodOrder` is the path that does delete the row. -/
theorem c9_item_failure_keeps_order_row :
    createCheckoutSession [⟨"p1", 1⟩] "01712345678"
        ⟨some "u1", [], some [], none, [⟨"p1", "Widget", 100, 5⟩],
          ⟨none, none, none, 0⟩, 0, none, some "insert failed"⟩
      = ⟨.error "Order items creation failed: insert failed", true, true⟩ := by
  norm_num [createCheckoutSession, validBdPhone, bdPhoneCore, singleRow,
    fastFailLookup, hardBlockFilter, dailyOrderFilter, dailyLimitTriggers,
    processCart, evaluateOrder, fetchedUser, newAccountSignal,
    highValueSignal, velocitySignal, blockedPhoneSignal, decideAction,
    liveRecentCount, isLiveRecentOrder, dayMs]
  decide

end NiiHut
